import Mathlib

/-!
Verification of the filter evaluation and validation engine of the `imc`
dashboard repository.

The validation unit is embedded from `src/utils/filterValidation.js`; the
top-level row gate `shouldIncludeRow` is embedded from the quoted source of
`src/utils/dateFilterLogic.js` in `REFACTORING_SUMMARY.md`.  The per-category
helpers of `dateFilterLogic.js` are absent from the repository snapshot and
are modelled from the specification, as marked on each definition.

JavaScript string semantics are modelled explicitly: string truthiness
(falsy iff empty), `String.prototype.trim`, the expression value of `&&` and
`||` (which return an operand, not necessarily a boolean), and `new Date` on
the documented `YYYY-MM-DD` input format.
-/

namespace IMC

/-! ## JavaScript string primitives -/

/-- Whitespace recognised by `String.prototype.trim`: the ASCII whitespace
characters plus no-break space and the byte-order mark. -/
def isJSWhitespace (c : Char) : Bool :=
  c == ' ' || c == '\t' || c == '\n' || c == '\r' || c == '\x0b' || c == '\x0c' ||
  c == '\u00A0' || c == '\uFEFF'

/-- Drop the longest whitespace prefix of a character list. -/
def dropLeadingWS : List Char → List Char
  | [] => []
  | c :: cs => if isJSWhitespace c then dropLeadingWS cs else c :: cs

/-- Models `s.trim()`: remove leading and trailing whitespace. -/
def jsTrim (s : String) : String :=
  String.mk ((dropLeadingWS ((dropLeadingWS s.data).reverse)).reverse)

/-- Truthiness of a JavaScript string: falsy iff it is the empty string. -/
def jsTruthy (s : String) : Bool :=
  s != ""

/-- Models the recurring source pattern `s && s.trim() !== ''` read in a
boolean position: the string is non-empty and not whitespace-only. -/
def jsNonBlank (s : String) : Bool :=
  jsTruthy s && jsTrim s != ""

/-! ## Calendar dates, modelling `new Date` on `YYYY-MM-DD` input -/

/-- A calendar date as the year, month and day fields of the parsed string. -/
structure CalDate where
  year : Nat
  month : Nat
  day : Nat
deriving DecidableEq, Repr

/-- Gregorian leap-year rule. -/
def isLeapYear (y : Nat) : Bool :=
  (y % 4 == 0 && y % 100 != 0) || y % 400 == 0

/-- Number of days in a month of a given year. -/
def daysInMonth (y m : Nat) : Nat :=
  if m == 2 then (if isLeapYear y then 29 else 28)
  else if m == 4 || m == 6 || m == 9 || m == 11 then 30
  else 31

/-- The date is a real calendar date (the check `new Date` performs on the
date-only ISO format before yielding a valid `Date`). -/
def CalDate.isRealDate (d : CalDate) : Bool :=
  1 ≤ d.month && d.month ≤ 12 && 1 ≤ d.day && d.day ≤ daysInMonth d.year d.month

/-- Chronological order of two dates, as comparing the timestamps of the two
UTC-midnight `Date` values does. -/
def CalDate.le (a b : CalDate) : Bool :=
  a.year < b.year ||
  (a.year == b.year && (a.month < b.month || (a.month == b.month && a.day ≤ b.day)))

/-- Value of a non-empty all-digit character list, `none` otherwise. -/
def digitsToNat : List Char → Option Nat
  | [] => none
  | cs =>
    if cs.all Char.isDigit then
      some (cs.foldl (fun n c => 10 * n + (c.toNat - 48)) 0)
    else none

/-- Split a character list on the dash character, keeping empty groups. -/
def splitOnDash : List Char → List (List Char)
  | [] => [[]]
  | c :: cs =>
    match splitOnDash cs with
    | [] => if c == '-' then [[], []] else [[c]]
    | g :: gs => if c == '-' then [] :: g :: gs else (c :: g) :: gs

/-- Models `new Date(s)` followed by the `isNaN(date.getTime())` test, on the
`YYYY-MM-DD` format the source documents for every date input: the parsed
calendar date, or `none` when the string is not a valid date in that format
(`new Date` rejects out-of-range fields such as `2024-02-30` on this format). -/
def jsParseDate (s : String) : Option CalDate :=
  match splitOnDash s.data with
  | [ys, ms, ds] =>
    if ys.length == 4 && ms.length == 2 && ds.length == 2 then
      match digitsToNat ys, digitsToNat ms, digitsToNat ds with
      | some y, some m, some d =>
        if (CalDate.mk y m d).isRealDate then some (CalDate.mk y m d) else none
      | _, _, _ => none
    else none
  | _ => none

/-- Equality of two date strings compared through parsing, as the missing
`normalizeDate` helper compares calendar dates rather than raw strings; an
unparseable side can never match. -/
def dateEqStr (a b : String) : Bool :=
  match jsParseDate a, jsParseDate b with
  | some x, some y => decide (x = y)
  | _, _ => false

/-- Order of two date strings compared through parsing; an unparseable side
can never satisfy the bound. -/
def dateLeStr (a b : String) : Bool :=
  match jsParseDate a, jsParseDate b with
  | some x, some y => CalDate.le x y
  | _, _ => false

/-! ## Validation unit: `src/utils/filterValidation.js` -/

/-- Embeds `validateDateRange`: empty side is valid, an unparseable side is
invalid, otherwise the parsed start must be on or before the parsed end. -/
def validateDateRange (startDate endDate : String) : Bool :=
  if !jsTruthy startDate || !jsTruthy endDate then true
  else
    let start := jsParseDate startDate
    let stop := jsParseDate endDate
    if start.isNone || stop.isNone then false
    else CalDate.le (start.getD (CalDate.mk 0 0 0)) (stop.getD (CalDate.mk 0 0 0))

/-- The filter-state object threaded through the components: the five string
fields plus the caller-supplied trip-count enabling flag, which defaults to
`false` when absent, as in the destructuring of `hasAnyActiveFilters`. -/
structure FilterState where
  selectedDate : String
  startDate : String
  endDate : String
  selectedZone : String
  tripCountFilter : String
  showTripCountFilter : Bool := false
deriving DecidableEq, Repr

/-- Embeds `hasAnyActiveFilters`, clause for clause. -/
def hasAnyActiveFilters (f : FilterState) : Bool :=
  if jsNonBlank f.selectedDate then true
  else if jsNonBlank f.startDate || jsNonBlank f.endDate then true
  else if jsNonBlank f.selectedZone then true
  else if f.showTripCountFilter && jsTruthy f.tripCountFilter &&
          f.tripCountFilter != "all" then true
  else false

/-- Embeds `isValidDate`: empty or whitespace-only strings count as valid,
otherwise the string must parse to a valid date. -/
def isValidDate (dateString : String) : Bool :=
  if !jsTruthy dateString || jsTrim dateString == "" then true
  else (jsParseDate dateString).isSome

/-- Embeds `getDateRangeErrorMessage`. -/
def getDateRangeErrorMessage (startDate endDate : String) : Option String :=
  if !jsTruthy startDate || !jsTruthy endDate then none
  else if !isValidDate startDate then some "Start date is invalid"
  else if !isValidDate endDate then some "End date is invalid"
  else if !validateDateRange startDate endDate then
    some "Start date must be before or equal to end date"
  else none

/-- The object literal returned by `getClearedFilterValues` (it carries no
`showTripCountFilter` field). -/
structure ClearedFilterValues where
  selectedDate : String
  startDate : String
  endDate : String
  selectedZone : String
  tripCountFilter : String
deriving DecidableEq, Repr

/-- Embeds `getClearedFilterValues`. -/
def getClearedFilterValues : ClearedFilterValues :=
  { selectedDate := ""
    startDate := ""
    endDate := ""
    selectedZone := ""
    tripCountFilter := "all" }

/-- A JavaScript value as it flows out of the remaining validation helpers:
`&&` and `||` return one of their operands, so a helper written as a bare
boolean expression over strings can return a string. -/
inductive JSVal where
  | str : String → JSVal
  | bool : Bool → JSVal
deriving DecidableEq, Repr

/-- Truthiness of such a value. -/
def JSVal.truthy : JSVal → Bool
  | .str s => s != ""
  | .bool b => b

/-- Expression value of `a && b`. -/
def jsAnd (a b : JSVal) : JSVal :=
  if a.truthy then b else a

/-- Expression value of `a || b`. -/
def jsOr (a b : JSVal) : JSVal :=
  if a.truthy then a else b

/-- Embeds `hasSpecificDateFilter`, keeping the JavaScript expression value:
`selectedDate && selectedDate.trim() !== ''`. -/
def hasSpecificDateFilter (selectedDate : String) : JSVal :=
  jsAnd (.str selectedDate) (.bool (jsTrim selectedDate != ""))

/-- Embeds `hasDateRangeFilter`, keeping the JavaScript expression value. -/
def hasDateRangeFilter (startDate endDate : String) : JSVal :=
  jsOr (jsAnd (.str startDate) (.bool (jsTrim startDate != "")))
       (jsAnd (.str endDate) (.bool (jsTrim endDate != "")))

/-- Embeds `hasBothDateFilters`, keeping the JavaScript expression value. -/
def hasBothDateFilters (selectedDate startDate endDate : String) : JSVal :=
  jsAnd (hasSpecificDateFilter selectedDate) (hasDateRangeFilter startDate endDate)

/-! ## Constants: `src/constants/filterConstants.js` -/

/-- One entry of the trip-count dropdown. -/
structure TripCountOption where
  value : String
  label : String
deriving DecidableEq, Repr

/-- Embeds `TRIP_COUNT_OPTIONS`. -/
def TRIP_COUNT_OPTIONS : List TripCountOption :=
  [ { value := "all", label := "All (<3 trips)" }
  , { value := "0", label := "0 Trips Only" }
  , { value := "1", label := "1 Trip Only" }
  , { value := "2", label := "2 Trips Only" } ]

/-! ## Filter evaluation unit: `src/utils/dateFilterLogic.js`

`shouldIncludeRow` is embedded from its quoted source in
`REFACTORING_SUMMARY.md`; the per-category helpers it calls are not in the
snapshot and are modelled from the specification (§4.2). -/

/-- A data row as the engine sees it: a date string, a zone identifier, and
the trip bucket the trip-count category inspects (any value of three or more
stands for the `3+` bucket). -/
structure Row where
  Date : String
  Zone : String
  tripsBucket : Nat
deriving DecidableEq, Repr

/-- Modelled from the spec: the `matchesSpecificDate` helper of the missing
`dateFilterLogic.js` — the specific date is set (non-blank) and equals the
row date as a calendar date. -/
def matchesSpecificDate (rowDate selectedDate : String) : Bool :=
  jsNonBlank selectedDate && dateEqStr rowDate selectedDate

/-- Modelled from the spec: the `matchesDateRange` helper of the missing
`dateFilterLogic.js` — both bounds are set and the row date lies between
them, inclusive at both ends; a lone bound never matches here. -/
def matchesDateRange (rowDate startDate endDate : String) : Bool :=
  jsNonBlank startDate && jsNonBlank endDate &&
  dateLeStr startDate rowDate && dateLeStr rowDate endDate

/-- Modelled from the spec: `applyDateFiltering` of the missing
`dateFilterLogic.js` (§4.2 and the pseudo-code in
`src/components/filters/README.md`) — with no date filter applied the row
passes; a lone range bound does not count as a filter and does not
constrain; otherwise the specific-date and range criteria combine with OR. -/
def applyDateFiltering (rowDate selectedDate startDate endDate : String) : Bool :=
  if !jsNonBlank selectedDate && !(jsNonBlank startDate && jsNonBlank endDate) then true
  else matchesSpecificDate rowDate selectedDate || matchesDateRange rowDate startDate endDate

/-- Modelled from the spec: `applyZoneFiltering` of the missing
`dateFilterLogic.js` — true when no zone is selected, else exact
case-sensitive identifier equality. -/
def applyZoneFiltering (rowZone selectedZone : String) : Bool :=
  if !jsNonBlank selectedZone then true
  else rowZone == selectedZone

/-- Modelled from the spec: `applyTripCountFiltering` of the missing
`dateFilterLogic.js` — true when the selector is unset or `all`, else the
row's trip bucket must equal the numeric selector value exactly. -/
def applyTripCountFiltering (row : Row) (tripCountFilter : String) : Bool :=
  if !jsTruthy tripCountFilter || tripCountFilter == "all" then true
  else if tripCountFilter == "0" then row.tripsBucket == 0
  else if tripCountFilter == "1" then row.tripsBucket == 1
  else if tripCountFilter == "2" then row.tripsBucket == 2
  else false

/-- Embeds `shouldIncludeRow` from the quoted source of `dateFilterLogic.js`
in `REFACTORING_SUMMARY.md`: the three category verdicts combined with AND. -/
def shouldIncludeRow (row : Row) (filters : FilterState) : Bool :=
  let dateMatch := applyDateFiltering row.Date filters.selectedDate
    filters.startDate filters.endDate
  let zoneMatch := applyZoneFiltering row.Zone filters.selectedZone
  let tripCountMatch := applyTripCountFiltering row filters.tripCountFilter
  dateMatch && zoneMatch && tripCountMatch

/-! ## Shared lemmas -/

/-- The early-return cascade of `hasAnyActiveFilters` is the disjunction of
its four clauses. -/
theorem hasAnyActiveFilters_eq_or (f : FilterState) :
    hasAnyActiveFilters f =
      (jsNonBlank f.selectedDate || jsNonBlank f.startDate || jsNonBlank f.endDate ||
       jsNonBlank f.selectedZone ||
       (f.showTripCountFilter && jsTruthy f.tripCountFilter &&
        f.tripCountFilter != "all")) := by
  unfold hasAnyActiveFilters
  split_ifs with h1 h2 h3 h4 <;> simp_all
  exact h4

/-- With a blank specific date and a blank range start there is no date
constraint, whatever the end bound holds. -/
theorem applyDateFiltering_of_blank (rowDate sd st en : String)
    (h1 : jsNonBlank sd = false) (h2 : jsNonBlank st = false) :
    applyDateFiltering rowDate sd st en = true := by
  unfold applyDateFiltering
  simp [h1, h2]

/-- A blank zone selection never constrains. -/
theorem applyZoneFiltering_of_blank (rowZone z : String)
    (h : jsNonBlank z = false) :
    applyZoneFiltering rowZone z = true := by
  unfold applyZoneFiltering
  simp [h]

/-- An unset or default trip-count selector never constrains. -/
theorem applyTripCountFiltering_of_default (row : Row) (t : String)
    (h : t = "" ∨ t = "all") :
    applyTripCountFiltering row t = true := by
  rcases h with h | h <;> subst h <;> simp [applyTripCountFiltering, jsTruthy]

/-! ## Claims -/

/-- Claim C1: `shouldIncludeRow` is exactly the conjunction of the three
category verdicts, and whenever a date filter is applied the verdict is
`(specificMatch OR rangeMatch) AND zoneMatch AND tripMatch`, the OR confined
to the date category. -/
theorem shouldIncludeRow_two_level (row : Row) (f : FilterState) :
    shouldIncludeRow row f =
      (applyDateFiltering row.Date f.selectedDate f.startDate f.endDate &&
       applyZoneFiltering row.Zone f.selectedZone &&
       applyTripCountFiltering row f.tripCountFilter) ∧
    ((jsNonBlank f.selectedDate = true ∨
        (jsNonBlank f.startDate = true ∧ jsNonBlank f.endDate = true)) →
      shouldIncludeRow row f =
        ((matchesSpecificDate row.Date f.selectedDate ||
          matchesDateRange row.Date f.startDate f.endDate) &&
         applyZoneFiltering row.Zone f.selectedZone &&
         applyTripCountFiltering row f.tripCountFilter)) := by
  refine ⟨rfl, ?_⟩
  intro h
  show (applyDateFiltering row.Date f.selectedDate f.startDate f.endDate && _ && _) = _
  unfold applyDateFiltering
  rcases h with h | ⟨h1, h2⟩
  · simp [h]
  · simp [h1, h2]

/-- Witness for claim C1 at a concrete active-date state. -/
theorem shouldIncludeRow_two_level_witness :
    jsNonBlank "2024-01-01" = true ∧
    shouldIncludeRow (Row.mk "2024-01-01" "A" 1)
        (FilterState.mk "2024-01-01" "" "" "" "all" false) =
      ((matchesSpecificDate "2024-01-01" "2024-01-01" ||
        matchesDateRange "2024-01-01" "" "") &&
       applyZoneFiltering "A" "" &&
       applyTripCountFiltering (Row.mk "2024-01-01" "A" 1) "all") :=
  ⟨by decide,
   (shouldIncludeRow_two_level (Row.mk "2024-01-01" "A" 1)
     (FilterState.mk "2024-01-01" "" "" "" "all" false)).2 (Or.inl (by decide))⟩

/-- Claim C2 fails on the code: with the trip-count category disabled but the
selector left at `2`, `hasAnyActiveFilters` reports no active filter, yet
`shouldIncludeRow` still applies the selector and excludes a row with zero
trips. -/
theorem inactive_filters_can_still_exclude :
    hasAnyActiveFilters (FilterState.mk "" "" "" "" "2" false) = false ∧
    shouldIncludeRow (Row.mk "" "" 0) (FilterState.mk "" "" "" "" "2" false) = false := by
  decide

/-- Claim C2 as amended: when no filter is active and additionally the
trip-count category is enabled or the selector is unset or at its `all`
default, every row passes `shouldIncludeRow`. -/
theorem shouldIncludeRow_of_no_active_filters (row : Row) (f : FilterState)
    (h : hasAnyActiveFilters f = false)
    (htrip : f.showTripCountFilter = true ∨ f.tripCountFilter = "" ∨
      f.tripCountFilter = "all") :
    shouldIncludeRow row f = true := by
  rw [hasAnyActiveFilters_eq_or] at h
  simp only [Bool.or_eq_false_iff] at h
  obtain ⟨⟨⟨⟨hsd, hst⟩, hen⟩, hz⟩, htc⟩ := h
  have hdate := applyDateFiltering_of_blank row.Date f.selectedDate f.startDate f.endDate hsd hst
  have hzone := applyZoneFiltering_of_blank row.Zone f.selectedZone hz
  have htripdef : f.tripCountFilter = "" ∨ f.tripCountFilter = "all" := by
    rcases htrip with hshow | ht | ht
    · rw [hshow] at htc
      simp only [Bool.true_and, Bool.and_eq_false_iff] at htc
      rcases htc with ht | ht
      · exact Or.inl (by simpa [jsTruthy] using ht)
      · exact Or.inr (by simpa using ht)
    · exact Or.inl ht
    · exact Or.inr ht
  have htripOk := applyTripCountFiltering_of_default row f.tripCountFilter htripdef
  unfold shouldIncludeRow
  rw [hdate, hzone, htripOk]
  rfl

/-- Witness for the amended claim C2 at a concrete inactive state with the
trip-count category enabled. -/
theorem shouldIncludeRow_of_no_active_filters_witness :
    hasAnyActiveFilters (FilterState.mk "" "" "" "" "all" true) = false ∧
    shouldIncludeRow (Row.mk "2024-01-01" "A" 2)
      (FilterState.mk "" "" "" "" "all" true) = true :=
  ⟨by decide,
   shouldIncludeRow_of_no_active_filters (Row.mk "2024-01-01" "A" 2)
     (FilterState.mk "" "" "" "" "all" true) (by decide) (Or.inl rfl)⟩

/-- Claim C3: `validateDateRange` accepts an empty side; with both sides
present it rejects an unparseable side, and otherwise accepts exactly when
the parsed start is on or before the parsed end as calendar dates; the three
documented examples evaluate as stated. -/
theorem validateDateRange_contract :
    (∀ s e : String, s = "" ∨ e = "" → validateDateRange s e = true) ∧
    (∀ s e : String, s ≠ "" → e ≠ "" →
      jsParseDate s = none ∨ jsParseDate e = none →
      validateDateRange s e = false) ∧
    (∀ (s e : String) (a b : CalDate),
      jsParseDate s = some a → jsParseDate e = some b →
      (validateDateRange s e = true ↔ CalDate.le a b = true)) ∧
    validateDateRange "" "2024-01-01" = true ∧
    validateDateRange "2024-05-01" "2024-01-01" = false ∧
    validateDateRange "not-a-date" "2024-01-01" = false := by
  refine ⟨?_, ?_, ?_, by decide, by decide, by decide⟩
  · intro s e h
    rcases h with rfl | rfl <;> simp [validateDateRange, jsTruthy]
  · intro s e hs he h
    unfold validateDateRange
    rw [if_neg (by simp [jsTruthy, hs, he])]
    rcases h with h | h <;> simp [h]
  · intro s e a b ha hb
    have hs : s ≠ "" := by
      intro hcon
      rw [hcon, show jsParseDate "" = none from rfl] at ha
      cases ha
    have he : e ≠ "" := by
      intro hcon
      rw [hcon, show jsParseDate "" = none from rfl] at hb
      cases hb
    unfold validateDateRange
    rw [if_neg (by simp [jsTruthy, hs, he])]
    simp [ha, hb]

/-- Witness for claim C3: the empty-side clause applied at a concrete pair. -/
theorem validateDateRange_contract_witness :
    (("" : String) = "" ∨ ("2024-03-05" : String) = "") ∧
    validateDateRange "" "2024-03-05" = true :=
  ⟨Or.inl rfl, validateDateRange_contract.1 "" "2024-03-05" (Or.inl rfl)⟩

/-- Claim C4: `applyDateFiltering` passes every row when no date field is
set; whenever some date field is set and the bounds are either both set or
both unset, it returns exactly `specificMatch OR rangeMatch`; a set specific
date matches itself; and the range is inclusive at both ends, failing just
outside either bound (documented OR example included). -/
theorem applyDateFiltering_contract :
    (∀ d s st en : String, jsNonBlank s = false → jsNonBlank st = false →
      jsNonBlank en = false → applyDateFiltering d s st en = true) ∧
    (∀ d s st en : String,
      (jsNonBlank s = true ∨ jsNonBlank st = true ∨ jsNonBlank en = true) →
      jsNonBlank st = jsNonBlank en →
      applyDateFiltering d s st en =
        (matchesSpecificDate d s || matchesDateRange d st en)) ∧
    (∀ d : String, jsNonBlank d = true → (jsParseDate d).isSome = true →
      applyDateFiltering d d "" "" = true) ∧
    applyDateFiltering "2024-01-01" "2024-01-01" "2024-03-01" "2024-03-31" = true ∧
    applyDateFiltering "2024-03-15" "2024-01-01" "2024-03-01" "2024-03-31" = true ∧
    applyDateFiltering "2024-02-01" "2024-01-01" "2024-03-01" "2024-03-31" = false ∧
    applyDateFiltering "2024-03-01" "" "2024-03-01" "2024-03-31" = true ∧
    applyDateFiltering "2024-03-31" "" "2024-03-01" "2024-03-31" = true ∧
    applyDateFiltering "2024-02-29" "" "2024-03-01" "2024-03-31" = false ∧
    applyDateFiltering "2024-04-01" "" "2024-03-01" "2024-03-31" = false := by
  refine ⟨?_, ?_, ?_, by decide, by decide, by decide, by decide, by decide,
    by decide, by decide⟩
  · intro d s st en h1 h2 h3
    exact applyDateFiltering_of_blank d s st en h1 h2
  · intro d s st en h hbounds
    unfold applyDateFiltering
    cases hst : jsNonBlank st
    · have hen : jsNonBlank en = false := by rw [← hbounds, hst]
      have hsd : jsNonBlank s = true := by
        rcases h with h | h | h
        · exact h
        · rw [h] at hst; cases hst
        · rw [h] at hen; cases hen
      simp [hsd]
    · have hen : jsNonBlank en = true := by rw [← hbounds, hst]
      simp [hst, hen]
  · intro d hd hparse
    obtain ⟨a, ha⟩ := Option.isSome_iff_exists.mp hparse
    unfold applyDateFiltering
    rw [if_neg (by simp [hd])]
    have : matchesSpecificDate d d = true := by
      unfold matchesSpecificDate dateEqStr
      rw [hd, ha]
      simp
    rw [this]
    rfl

/-- Witness for claim C4: the self-match clause applied at a concrete date. -/
theorem applyDateFiltering_contract_witness :
    jsNonBlank "2024-01-02" = true ∧ (jsParseDate "2024-01-02").isSome = true ∧
    applyDateFiltering "2024-01-02" "2024-01-02" "" "" = true :=
  ⟨by decide, by decide,
   applyDateFiltering_contract.2.2.1 "2024-01-02" (by decide) (by decide)⟩

/-- Claim C5: a lone range bound leaves the verdict of `applyDateFiltering`
exactly what it would be with both bounds blank, and with no specific date
set it imposes no constraint at all. -/
theorem applyDateFiltering_lone_bound (d s st en : String)
    (h : (jsNonBlank st = true ∧ jsNonBlank en = false) ∨
         (jsNonBlank st = false ∧ jsNonBlank en = true)) :
    applyDateFiltering d s st en = applyDateFiltering d s "" "" ∧
    (jsNonBlank s = false → applyDateFiltering d s st en = true) := by
  have hrange : matchesDateRange d st en = false := by
    unfold matchesDateRange
    rcases h with ⟨h1, h2⟩ | ⟨h1, h2⟩ <;> simp [h1, h2]
  have hboth : (jsNonBlank st && jsNonBlank en) = false := by
    rcases h with ⟨h1, h2⟩ | ⟨h1, h2⟩ <;> simp [h1, h2]
  have hz : jsNonBlank "" = false := by decide
  have hrange0 : matchesDateRange d "" "" = false := by
    unfold matchesDateRange
    rw [hz]
    simp
  constructor
  · unfold applyDateFiltering
    rw [hboth, hz, hrange, hrange0]
    simp
  · intro hs
    unfold applyDateFiltering
    rw [hboth, hs]
    rfl

/-- Witness for claim C5 at a concrete lone start bound. -/
theorem applyDateFiltering_lone_bound_witness :
    ((jsNonBlank "2024-03-01" = true ∧ jsNonBlank "" = false) ∨
      (jsNonBlank "2024-03-01" = false ∧ jsNonBlank "" = true)) ∧
    applyDateFiltering "1999-09-09" "" "2024-03-01" "" =
      applyDateFiltering "1999-09-09" "" "" "" ∧
    (jsNonBlank "" = false → applyDateFiltering "1999-09-09" "" "2024-03-01" "" = true) :=
  ⟨Or.inl (by decide),
   applyDateFiltering_lone_bound "1999-09-09" "" "2024-03-01" ""
     (Or.inl (by decide))⟩

/-- Claim C6: `hasAnyActiveFilters` is true exactly when the specific date,
a range bound, or the zone is non-blank, or the trip-count category is
enabled with a set non-default selector; with the category disabled the
selector value is ignored. -/
theorem hasAnyActiveFilters_contract :
    (∀ f : FilterState, hasAnyActiveFilters f =
      (jsNonBlank f.selectedDate || jsNonBlank f.startDate || jsNonBlank f.endDate ||
       jsNonBlank f.selectedZone ||
       (f.showTripCountFilter && jsTruthy f.tripCountFilter &&
        f.tripCountFilter != "all"))) ∧
    (∀ sd st en z t u : String,
      hasAnyActiveFilters (FilterState.mk sd st en z t false) =
      hasAnyActiveFilters (FilterState.mk sd st en z u false)) := by
  refine ⟨hasAnyActiveFilters_eq_or, ?_⟩
  intro sd st en z t u
  rw [hasAnyActiveFilters_eq_or, hasAnyActiveFilters_eq_or]
  simp

/-- Claim C7: the trip-count selectors are exactly `all`, `0`, `1`, `2`;
`all` or an unset selector passes every row, a numeric selector passes
exactly its bucket, and rows in the `3+` bucket pass only under `all`. -/
theorem applyTripCountFiltering_contract :
    TRIP_COUNT_OPTIONS.map TripCountOption.value = ["all", "0", "1", "2"] ∧
    (∀ row : Row, applyTripCountFiltering row "all" = true ∧
      applyTripCountFiltering row "" = true) ∧
    (∀ row : Row,
      (applyTripCountFiltering row "0" = true ↔ row.tripsBucket = 0) ∧
      (applyTripCountFiltering row "1" = true ↔ row.tripsBucket = 1) ∧
      (applyTripCountFiltering row "2" = true ↔ row.tripsBucket = 2)) ∧
    (∀ row : Row, 3 ≤ row.tripsBucket →
      applyTripCountFiltering row "0" = false ∧
      applyTripCountFiltering row "1" = false ∧
      applyTripCountFiltering row "2" = false) := by
  refine ⟨by decide, ?_, ?_, ?_⟩
  · intro row
    exact ⟨applyTripCountFiltering_of_default row "all" (Or.inr rfl),
           applyTripCountFiltering_of_default row "" (Or.inl rfl)⟩
  · intro row
    refine ⟨?_, ?_, ?_⟩ <;> simp [applyTripCountFiltering, jsTruthy]
  · intro row h
    refine ⟨?_, ?_, ?_⟩ <;> simp [applyTripCountFiltering, jsTruthy] <;> omega

/-- Witness for claim C7: a `3+` row is excluded by the `1` selector. -/
theorem applyTripCountFiltering_contract_witness :
    3 ≤ (Row.mk "" "" 5).tripsBucket ∧
    applyTripCountFiltering (Row.mk "" "" 5) "1" = false :=
  ⟨by decide,
   (applyTripCountFiltering_contract.2.2.2 (Row.mk "" "" 5) (by decide)).2.1⟩

/-- Claim C8 records a code bug: the boolean-typed engine functions are
total, but `hasSpecificDateFilter`, `hasDateRangeFilter` and
`hasBothDateFilters` — documented to return a boolean — return the empty
string (a falsy non-boolean JavaScript value) on empty inputs, because `&&`
and `||` return an operand. -/
theorem validation_helpers_total_but_non_boolean :
    hasSpecificDateFilter "" = JSVal.str "" ∧
    (∀ b : Bool, hasSpecificDateFilter "" ≠ JSVal.bool b) ∧
    hasDateRangeFilter "" "" = JSVal.str "" ∧
    hasBothDateFilters "" "" "" = JSVal.str "" ∧
    hasSpecificDateFilter " " = JSVal.bool false ∧
    (∀ s e : String, validateDateRange s e = true ∨ validateDateRange s e = false) ∧
    (∀ s : String, isValidDate s = true ∨ isValidDate s = false) ∧
    (∀ f : FilterState, hasAnyActiveFilters f = true ∨ hasAnyActiveFilters f = false) ∧
    isValidDate "not-a-date" = false ∧
    validateDateRange "not-a-date" "2024-01-01" = false := by
  refine ⟨by decide, ?_, by decide, by decide, by decide, ?_, ?_, ?_,
    by decide, by decide⟩
  · intro b
    cases b <;> decide
  · intro s e
    exact Bool.eq_false_or_eq_true _
  · intro s
    exact Bool.eq_false_or_eq_true _
  · intro f
    exact Bool.eq_false_or_eq_true _

/-- Claim C9: the cleared filter object is inactive under either value of
the trip-count enabling flag. -/
theorem clearedFilterValues_inactive :
    ∀ b : Bool,
      hasAnyActiveFilters
        (FilterState.mk getClearedFilterValues.selectedDate
          getClearedFilterValues.startDate getClearedFilterValues.endDate
          getClearedFilterValues.selectedZone getClearedFilterValues.tripCountFilter
          b) = false := by
  intro b
  cases b <;> decide

/-- Claim C10: `getDateRangeErrorMessage` yields no message exactly when
`validateDateRange` accepts, and yields a message whenever it rejects. -/
theorem getDateRangeErrorMessage_contract (s e : String) :
    (getDateRangeErrorMessage s e = none ↔ validateDateRange s e = true) ∧
    (validateDateRange s e = false → getDateRangeErrorMessage s e ≠ none) := by
  have key : getDateRangeErrorMessage s e = none ↔ validateDateRange s e = true := by
    unfold getDateRangeErrorMessage validateDateRange isValidDate
    cases hts : jsTruthy s <;> cases hte : jsTruthy e <;>
      cases hps : jsParseDate s <;> cases hpe : jsParseDate e <;>
        simp [hts, hte, hps, hpe] <;> split_ifs <;> simp_all
  refine ⟨key, fun hf hn => ?_⟩
  have := key.mp hn
  rw [this] at hf
  simp at hf

/-- Witness for claim C10: a backwards range rejects and yields a message. -/
theorem getDateRangeErrorMessage_contract_witness :
    validateDateRange "2024-05-01" "2024-01-01" = false ∧
    getDateRangeErrorMessage "2024-05-01" "2024-01-01" ≠ none :=
  ⟨by decide,
   (getDateRangeErrorMessage_contract "2024-05-01" "2024-01-01").2 (by decide)⟩

end IMC
